import Mathlib

/-!
Verification of the ranking (leaderboard) engine of the Kombinu frontend.

The definitions below are a shallow embedding of `RankingService`
(`src/services/rankingService.ts`, here `src/unnamed/part_004`).  JavaScript
numbers are modelled as exact rationals (`ℚ`); timestamps (`Date` values) are
modelled as their epoch-milliseconds value, also in `ℚ`.  The one place where
IEEE-754 special values matter to a claim — the expression
`acertos / total >= 0.7` when `total = 0` — is modelled explicitly
(`jsPassou`).  The `localStorage` cache, the per-user quiz-stat history and the
observer (listener) side effects are modelled as explicit components of a
service state record, so that every mutation the service performs is visible
in the state.
-/

namespace Kombinu

/-- `tendencia` values of a ranking entry (src/unnamed/part_004:35). -/
inductive Tendencia where
  | subiu
  | desceu
  | manteve
  | novo
deriving DecidableEq, Repr

/-- `RankingEntry` (src/unnamed/part_004:21-36).  Numeric fields are JS
numbers, modelled as `ℚ`; `ultimaAtividade` is a `Date`, modelled as epoch
milliseconds in `ℚ`. -/
structure RankingEntry where
  usuarioId : String
  nome : String
  avatar : Option String
  pontos : ℚ
  nivel : ℚ
  quizzesCompletados : ℚ
  sequenciaAtual : ℚ
  melhorSequencia : ℚ
  mediaAcertos : ℚ
  tempoTotalEstudo : ℚ
  ultimaAtividade : ℚ
  posicao : ℚ
  posicaoAnterior : Option ℚ
  tendencia : Tendencia
deriving DecidableEq, Repr

/-- `RankingData` (src/unnamed/part_004:39-44).  The `categoria` object is
modelled as an association list from category name to entry list. -/
structure RankingData where
  global : List RankingEntry
  semanal : List RankingEntry
  mensal : List RankingEntry
  categoria : List (String × List RankingEntry)
deriving DecidableEq, Repr

/-- `QuizStats` (src/unnamed/part_004:47-56). -/
structure QuizStats where
  usuarioId : String
  quizId : String
  categoria : String
  pontos : ℚ
  acertos : ℚ
  total : ℚ
  tempoGasto : ℚ
  dataCompletado : ℚ
deriving DecidableEq, Repr

/-- The fields of the `Usuario` type (src/unnamed/part_007:7-16) that the
ranking service reads (`id`, `nome`, `avatar`, `pontos`, `nivel`). -/
structure Usuario where
  id : String
  nome : String
  avatar : Option String
  pontos : ℚ
  nivel : ℚ
deriving DecidableEq, Repr

/-- The sort comparator of `recalcularPosicoes` (src/unnamed/part_004:407-430):
points, then average accuracy, then best streak, then quizzes completed, each
descending, then most recent activity first.  A negative result means `a`
sorts before `b`. -/
def cmpEntries (a b : RankingEntry) : ℚ :=
  if a.pontos ≠ b.pontos then b.pontos - a.pontos
  else if a.mediaAcertos ≠ b.mediaAcertos then b.mediaAcertos - a.mediaAcertos
  else if a.melhorSequencia ≠ b.melhorSequencia then b.melhorSequencia - a.melhorSequencia
  else if a.quizzesCompletados ≠ b.quizzesCompletados then
    b.quizzesCompletados - a.quizzesCompletados
  else b.ultimaAtividade - a.ultimaAtividade

/-- `a` may be placed no later than `b` by `Array.prototype.sort` with
comparator `cmpEntries`, i.e. `cmpEntries a b ≤ 0`. -/
def jsLe (a b : RankingEntry) : Prop :=
  cmpEntries a b ≤ 0

instance : DecidableRel jsLe := fun a b =>
  inferInstanceAs (Decidable (cmpEntries a b ≤ 0))

/-- The five comparator keys of an entry, negated and nested lexicographically,
so that `cmpEntries a b ≤ 0` coincides with `keyOf a ≤ keyOf b`. -/
def keyOf (e : RankingEntry) : Lex (ℚ × Lex (ℚ × Lex (ℚ × Lex (ℚ × ℚ)))) :=
  toLex (-e.pontos, toLex (-e.mediaAcertos, toLex (-e.melhorSequencia,
    toLex (-e.quizzesCompletados, -e.ultimaAtividade))))

theorem cmpEntries_neg (a b : RankingEntry) : cmpEntries b a = -cmpEntries a b := by
  unfold cmpEntries
  split_ifs with h1 h2 h3 h4 h5 h6 h7 h8 <;> first
    | ring1
    | (exfalso; simp_all)

theorem cmpEntries_le_iff (a b : RankingEntry) :
    cmpEntries a b ≤ 0 ↔ keyOf a ≤ keyOf b := by
  unfold cmpEntries keyOf
  split_ifs with h1 h2 h3 h4
  · simp only [Prod.Lex.le_iff, neg_lt_neg_iff, neg_inj]
    constructor
    · intro h
      exact Or.inl (lt_of_le_of_ne (by linarith) (fun e => h1 e.symm))
    · rintro (h | ⟨he, _⟩)
      · linarith
      · exact absurd he h1
  · simp only [Prod.Lex.le_iff, neg_lt_neg_iff, neg_inj, not_not] at h1 ⊢
    rw [h1]
    simp only [lt_self_iff_false, true_and, false_or]
    constructor
    · intro h
      exact Or.inl (lt_of_le_of_ne (by linarith) (fun e => h2 e.symm))
    · rintro (h | ⟨he, _⟩)
      · linarith
      · exact absurd he h2
  · simp only [ne_eq, not_not] at h1 h2
    simp only [Prod.Lex.le_iff, neg_lt_neg_iff, neg_inj, h1, h2]
    simp only [lt_self_iff_false, true_and, false_or]
    constructor
    · intro h
      exact Or.inl (lt_of_le_of_ne (by linarith) (fun e => h3 e.symm))
    · rintro (h | ⟨he, _⟩)
      · linarith
      · exact absurd he h3
  · simp only [ne_eq, not_not] at h1 h2 h3
    simp only [Prod.Lex.le_iff, neg_lt_neg_iff, neg_inj, h1, h2, h3]
    simp only [lt_self_iff_false, true_and, false_or]
    constructor
    · intro h
      exact Or.inl (lt_of_le_of_ne (by linarith) (fun e => h4 e.symm))
    · rintro (h | ⟨he, _⟩)
      · linarith
      · exact absurd he h4
  · simp only [ne_eq, not_not] at h1 h2 h3 h4
    simp only [Prod.Lex.le_iff, neg_lt_neg_iff, neg_inj, h1, h2, h3, h4]
    simp only [lt_self_iff_false, true_and, false_or]
    constructor <;> intro h <;> linarith

theorem jsLe_iff_keyOf (a b : RankingEntry) : jsLe a b ↔ keyOf a ≤ keyOf b :=
  cmpEntries_le_iff a b

theorem cmpEntries_lt_iff (a b : RankingEntry) :
    cmpEntries a b < 0 ↔ keyOf a < keyOf b := by
  rw [← not_le, ← not_le, ← cmpEntries_le_iff b a, cmpEntries_neg a b]
  constructor <;> intro h <;> intro hc <;> apply h <;> linarith

theorem keyOf_eq_iff (a b : RankingEntry) :
    keyOf a = keyOf b ↔ a.pontos = b.pontos ∧ a.mediaAcertos = b.mediaAcertos ∧
      a.melhorSequencia = b.melhorSequencia ∧ a.quizzesCompletados = b.quizzesCompletados ∧
      a.ultimaAtividade = b.ultimaAtividade := by
  unfold keyOf
  simp only [toLex_inj, Prod.mk.injEq, neg_inj]

instance : IsTotal RankingEntry jsLe :=
  ⟨fun a b => by
    rw [jsLe_iff_keyOf, jsLe_iff_keyOf]
    exact le_total (keyOf a) (keyOf b)⟩

instance : IsTrans RankingEntry jsLe :=
  ⟨fun a b c hab hbc => by
    rw [jsLe_iff_keyOf] at hab hbc ⊢
    exact le_trans hab hbc⟩

/-- Model of `this.rankings.global.sort(comparator)`
(src/unnamed/part_004:407-430).  `Array.prototype.sort` is required by
ECMAScript (ES2019 and later) to be stable, and with a consistent comparator
its output is the unique permutation that is sorted with respect to
`cmpEntries · · ≤ 0` and keeps elements that compare equal in input order;
insertion sort with respect to `jsLe` computes exactly that permutation. -/
def ordenarEntradas (global : List RankingEntry) : List RankingEntry :=
  List.insertionSort jsLe global

/-- The per-entry body of the `forEach` in `recalcularPosicoes`
(src/unnamed/part_004:433-449): record the previous `posicao`, assign
`posicao := index + 1`, and derive the trend — but only when the current
trend is not `'novo'`. -/
def atualizarPosicaoTendencia (index : ℕ) (e : RankingEntry) : RankingEntry :=
  let posicaoAnterior := e.posicao
  let e1 := { e with posicao := (index : ℚ) + 1 }
  if e.tendencia ≠ Tendencia.novo then
    { e1 with
      tendencia :=
        if posicaoAnterior = 0 then Tendencia.novo
        else if e1.posicao < posicaoAnterior then Tendencia.subiu
        else if posicaoAnterior < e1.posicao then Tendencia.desceu
        else Tendencia.manteve }
  else e1

/-- `recalcularPosicoes` (src/unnamed/part_004:405-454): sort the global list
by the multi-key comparator, then assign dense 1-based positions and update
trends. -/
def recalcularPosicoes (global : List RankingEntry) : List RankingEntry :=
  (ordenarEntradas global).enum.map (fun p => atualizarPosicaoTendencia p.1 p.2)

/-- Seven days in milliseconds (src/unnamed/part_004:461). -/
def msSemana : ℚ := 7 * 24 * 60 * 60 * 1000

/-- Thirty days in milliseconds (src/unnamed/part_004:462). -/
def msMes : ℚ := 30 * 24 * 60 * 60 * 1000

/-- The weekly list (src/unnamed/part_004:465-467): entries active in the last
seven days, in global order, truncated to the first 50. -/
def filtrarSemanal (global : List RankingEntry) (agora : ℚ) : List RankingEntry :=
  (global.filter (fun e => agora - msSemana ≤ e.ultimaAtividade)).take 50

/-- The monthly list (src/unnamed/part_004:470-472): entries active in the last
thirty days, in global order, truncated to the first 100. -/
def filtrarMensal (global : List RankingEntry) (agora : ℚ) : List RankingEntry :=
  (global.filter (fun e => agora - msMes ≤ e.ultimaAtividade)).take 100

/-- `atualizarRankingsPorPeriodo` (src/unnamed/part_004:459-478). -/
def atualizarRankingsPorPeriodo (r : RankingData) (agora : ℚ) : RankingData :=
  { r with
    semanal := filtrarSemanal r.global agora
    mensal := filtrarMensal r.global agora }

/-- The empty ranking structure (src/unnamed/part_004:76-81 and 161-166). -/
def rankingsVazios : RankingData :=
  { global := [], semanal := [], mensal := [], categoria := [] }

/-- `carregarRankings` (src/unnamed/part_004:112-167).  The remote fetch is
modelled by its outcome: `some globalRankings` when `api.get` succeeded, and
`none` when it threw.  The local durable cache is modelled by its parsed
content (`none` when `localStorage` holds nothing under the key).  On remote
success the weekly and monthly lists are derived inline from the fetched
global list (lines 133-138) and `categoria` is the empty object; on failure
the cached snapshot is returned exactly as stored; with no cache the empty
structure is returned. -/
def carregarRankings (remoto : Option (List RankingEntry))
    (cache : Option RankingData) (agora : ℚ) : RankingData :=
  match remoto with
  | some globalRankings =>
      { global := globalRankings
        semanal := (globalRankings.filter
          (fun e => agora - msSemana ≤ e.ultimaAtividade)).take 50
        mensal := (globalRankings.filter
          (fun e => agora - msMes ≤ e.ultimaAtividade)).take 100
        categoria := [] }
  | none =>
      match cache with
      | some rankings => rankings
      | none => rankingsVazios

/-- `Math.round` on a JS number: round half toward positive infinity. -/
def jsRound (x : ℚ) : ℚ :=
  ((⌊x + 1 / 2⌋ : ℤ) : ℚ)

/-- The JS truth value of `acertos / total >= 0.7`
(src/unnamed/part_004:356 and 379-380).  When `total = 0`, JS division yields
`Infinity` for `acertos > 0` (then the comparison holds), `NaN` for
`acertos = 0` and `-Infinity` for `acertos < 0` (then it does not); otherwise
it is ordinary division.  (IEEE-754 rounding is not otherwise modelled; the
claims concern exact threshold arithmetic.) -/
def jsPassou (acertos total : ℚ) : Bool :=
  if total = 0 then decide (0 < acertos)
  else decide ((7 : ℚ) / 10 ≤ acertos / total)

/-- `calcularMediaAcertos` (src/unnamed/part_004:487-494): overall accuracy
percentage across a list of quiz stats, `0` for an empty list or a
non-positive question total. -/
def calcularMediaAcertos (estatisticas : List QuizStats) : ℚ :=
  if estatisticas.length = 0 then 0
  else
    let totalAcertos := estatisticas.foldl (fun sum stat => sum + stat.acertos) 0
    let totalPerguntas := estatisticas.foldl (fun sum stat => sum + stat.total) 0
    if 0 < totalPerguntas then totalAcertos / totalPerguntas * 100 else 0

/-- `obterEstatisticasUsuario` (src/unnamed/part_004:499-502). -/
def obterEstatisticasUsuario (todasEstatisticas : List QuizStats)
    (usuarioId : String) : List QuizStats :=
  todasEstatisticas.filter (fun stat => stat.usuarioId == usuarioId)

/-- The new `RankingEntry` created on a user's first quiz completion
(src/unnamed/part_004:372-386).  Note: with `total = 0` the source stores
`NaN` (JS `(acertos/total)*100`) into `mediaAcertos`; the `ℚ` model stores
`0` there (`ℚ` division by zero).  No settled claim depends on the stored
`mediaAcertos` value in that case. -/
def novaEntrada (usuario : Usuario) (acertos total tempoGasto agora : ℚ) :
    RankingEntry :=
  { usuarioId := usuario.id
    nome := usuario.nome
    avatar := usuario.avatar
    pontos := usuario.pontos
    nivel := usuario.nivel
    quizzesCompletados := 1
    sequenciaAtual := if jsPassou acertos total then 1 else 0
    melhorSequencia := if jsPassou acertos total then 1 else 0
    mediaAcertos := acertos / total * 100
    tempoTotalEstudo := jsRound (tempoGasto / 60)
    ultimaAtividade := agora
    posicao := 0
    posicaoAnterior := none
    tendencia := Tendencia.novo }

/-- The in-place update of an existing entry (src/unnamed/part_004:340-363):
replace points and level from the `Usuario` record, bump the quiz count,
stamp the activity time, remember the previous position, accumulate study
minutes, recompute the accuracy average (`media`, computed by the caller from
the full per-user history) and apply the streak rule. -/
def atualizarExistente (e : RankingEntry) (usuario : Usuario) (media : ℚ)
    (acertos total tempoGasto agora : ℚ) : RankingEntry :=
  let e1 := { e with
    pontos := usuario.pontos
    nivel := usuario.nivel
    quizzesCompletados := e.quizzesCompletados + 1
    ultimaAtividade := agora
    posicaoAnterior := some e.posicao
    tempoTotalEstudo := e.tempoTotalEstudo + jsRound (tempoGasto / 60)
    mediaAcertos := media }
  if jsPassou acertos total then
    let seq := e1.sequenciaAtual + 1
    { e1 with
      sequenciaAtual := seq
      melhorSequencia := if e1.melhorSequencia < seq then seq else e1.melhorSequencia }
  else
    { e1 with sequenciaAtual := 0 }

/-- Mutating the first entry of the array that satisfies `p`, as
`Array.prototype.find` followed by field assignments does
(src/unnamed/part_004:338-363). -/
def substituirPrimeiro (p : RankingEntry → Bool)
    (f : RankingEntry → RankingEntry) : List RankingEntry → List RankingEntry
  | [] => []
  | e :: resto => if p e then f e :: resto else e :: substituirPrimeiro p f resto

/-- `atualizarEntradaUsuario` (src/unnamed/part_004:329-396).
`todasEstatisticas` is the quiz-stat store at call time (which already
contains the event being processed, appended at step 1 of
`processarQuizCompletado`).  `categoria` and `pontos` are accepted and unused,
as in the source. -/
def atualizarEntradaUsuario (global : List RankingEntry)
    (todasEstatisticas : List QuizStats) (usuario : Usuario)
    (_categoria : String) (_pontos : ℚ) (acertos total tempoGasto agora : ℚ) :
    List RankingEntry :=
  match global.find? (fun e => e.usuarioId == usuario.id) with
  | some _ =>
      let media := calcularMediaAcertos
        (obterEstatisticasUsuario todasEstatisticas usuario.id)
      substituirPrimeiro (fun e => e.usuarioId == usuario.id)
        (fun e => atualizarExistente e usuario media acertos total tempoGasto agora)
        global
  | none => global ++ [novaEntrada usuario acertos total tempoGasto agora]

/-- The observable state of the singleton `RankingService`: the in-memory
snapshot, the quiz-stat history (`localStorage` key `kombinu_quiz_stats`), the
local snapshot cache (`localStorage` key `kombinu_rankings`, `none` when the
key is absent) and the log of snapshots delivered to listeners
(`notificarListeners`, src/unnamed/part_004:239-247). -/
structure ServiceState where
  rankings : RankingData
  quizStats : List QuizStats
  cacheLocal : Option RankingData
  notificacoes : List RankingData
deriving DecidableEq, Repr

/-- The state built by the constructor before any data is loaded
(src/unnamed/part_004:74-93), over empty storage. -/
def estadoInicial : ServiceState :=
  { rankings := rankingsVazios
    quizStats := []
    cacheLocal := none
    notificacoes := [] }

/-- `salvarEstatisticasQuiz` (src/unnamed/part_004:320-324): append the stat
to the stored history. -/
def salvarEstatisticasQuiz (s : ServiceState) (stats : QuizStats) : ServiceState :=
  { s with quizStats := s.quizStats ++ [stats] }

/-- `salvarRankings` (src/unnamed/part_004:172-179): write the current
snapshot through to the local cache. -/
def salvarRankings (s : ServiceState) : ServiceState :=
  { s with cacheLocal := some s.rankings }

/-- `notificarListeners` (src/unnamed/part_004:239-247): every listener is
invoked with the current snapshot; the delivery is recorded in the log. -/
def notificarListeners (s : ServiceState) : ServiceState :=
  { s with notificacoes := s.notificacoes ++ [s.rankings] }

/-- `processarQuizCompletado` (src/unnamed/part_004:257-315): save the quiz
stat, upsert the user's entry, recompute positions, refresh the period lists,
persist, notify — in that order, with no input validation. -/
def processarQuizCompletado (s : ServiceState) (usuario : Usuario)
    (quizId categoria : String) (pontos acertos total tempoGasto agora : ℚ) :
    ServiceState :=
  let s1 := salvarEstatisticasQuiz s
    { usuarioId := usuario.id, quizId := quizId, categoria := categoria
      pontos := pontos, acertos := acertos, total := total
      tempoGasto := tempoGasto, dataCompletado := agora }
  let global1 := atualizarEntradaUsuario s1.rankings.global s1.quizStats usuario
    categoria pontos acertos total tempoGasto agora
  let global2 := recalcularPosicoes global1
  let rankings2 := atualizarRankingsPorPeriodo
    { s1.rankings with global := global2 } agora
  notificarListeners (salvarRankings { s1 with rankings := rankings2 })

/-- `resetarRankings` (src/unnamed/part_004:591-605): clear the snapshot,
remove both storage keys, notify. -/
def resetarRankings (s : ServiceState) : ServiceState :=
  notificarListeners
    { s with rankings := rankingsVazios, quizStats := [], cacheLocal := none }

/-- `obterRankingPorCategoria` (src/unnamed/part_004:532-534):
`this.rankings.categoria[categoria] || []`. -/
def obterRankingPorCategoria (r : RankingData) (categoria : String) :
    List RankingEntry :=
  match r.categoria.find? (fun par => par.1 == categoria) with
  | some par => par.2
  | none => []

/-- The counts returned by `obterEstatisticasGerais`
(src/unnamed/part_004:554-562); `ultimaAtualizacao` (the call-time clock) is
omitted. -/
structure EstatisticasGerais where
  totalUsuarios : ℕ
  usuariosAtivosUltimaSemana : ℕ
  usuariosAtivosUltimoMes : ℕ
  categorias : ℕ
deriving DecidableEq, Repr

/-- `obterEstatisticasGerais` (src/unnamed/part_004:554-562);
`categorias` is `Object.keys(this.rankings.categoria).length`. -/
def obterEstatisticasGerais (r : RankingData) : EstatisticasGerais :=
  { totalUsuarios := r.global.length
    usuariosAtivosUltimaSemana := r.semanal.length
    usuariosAtivosUltimoMes := r.mensal.length
    categorias := r.categoria.length }

/-- The states the singleton service can reach: it starts empty
(src/unnamed/part_004:74-81), may replace its snapshot by a
`carregarRankings` result (the cache read there is the service's own last
write, src/unnamed/part_004:84 and 149), and mutates through
`processarQuizCompletado` and `resetarRankings`. -/
inductive Reachable : ServiceState → Prop where
  | inicial : Reachable estadoInicial
  | carregar (s : ServiceState) (remoto : Option (List RankingEntry)) (agora : ℚ) :
      Reachable s →
      Reachable { s with rankings := carregarRankings remoto s.cacheLocal agora }
  | processar (s : ServiceState) (usuario : Usuario) (quizId categoria : String)
      (pontos acertos total tempoGasto agora : ℚ) :
      Reachable s →
      Reachable (processarQuizCompletado s usuario quizId categoria pontos
        acertos total tempoGasto agora)
  | resetar (s : ServiceState) :
      Reachable s → Reachable (resetarRankings s)

theorem length_ordenarEntradas (l : List RankingEntry) :
    (ordenarEntradas l).length = l.length :=
  List.length_insertionSort jsLe l

theorem perm_ordenarEntradas (l : List RankingEntry) :
    (ordenarEntradas l).Perm l :=
  List.perm_insertionSort jsLe l

theorem sorted_ordenarEntradas (l : List RankingEntry) :
    (ordenarEntradas l).Sorted jsLe :=
  List.sorted_insertionSort jsLe l

theorem length_recalcularPosicoes (l : List RankingEntry) :
    (recalcularPosicoes l).length = l.length := by
  unfold recalcularPosicoes
  rw [List.length_map, List.enum_length, length_ordenarEntradas]

theorem recalcularPosicoes_getElem (l : List RankingEntry) (i : ℕ)
    (hi : i < (recalcularPosicoes l).length)
    (hi' : i < (ordenarEntradas l).length) :
    (recalcularPosicoes l)[i] =
      atualizarPosicaoTendencia i (ordenarEntradas l)[i] := by
  unfold recalcularPosicoes
  rw [List.getElem_map, List.getElem_enum]

theorem posicao_atualizarPosicaoTendencia (i : ℕ) (e : RankingEntry) :
    (atualizarPosicaoTendencia i e).posicao = (i : ℚ) + 1 := by
  unfold atualizarPosicaoTendencia
  split <;> rfl

theorem chaves_atualizarPosicaoTendencia (i : ℕ) (e : RankingEntry) :
    (atualizarPosicaoTendencia i e).pontos = e.pontos ∧
    (atualizarPosicaoTendencia i e).mediaAcertos = e.mediaAcertos ∧
    (atualizarPosicaoTendencia i e).melhorSequencia = e.melhorSequencia ∧
    (atualizarPosicaoTendencia i e).quizzesCompletados = e.quizzesCompletados ∧
    (atualizarPosicaoTendencia i e).ultimaAtividade = e.ultimaAtividade ∧
    (atualizarPosicaoTendencia i e).posicaoAnterior = e.posicaoAnterior ∧
    (atualizarPosicaoTendencia i e).usuarioId = e.usuarioId := by
  unfold atualizarPosicaoTendencia
  split <;> exact ⟨rfl, rfl, rfl, rfl, rfl, rfl, rfl⟩

/-- Two sorted lists that are permutations of each other are equal, given
antisymmetry of the order on the members of the list (rather than globally). -/
theorem eq_of_perm_of_sorted_on {α : Type} {r : α → α → Prop} :
    ∀ {l₁ l₂ : List α}, l₁.Perm l₂ → l₁.Sorted r → l₂.Sorted r →
      (∀ a ∈ l₁, ∀ b ∈ l₁, r a b → r b a → a = b) → l₁ = l₂ := by
  intro l₁
  induction l₁ with
  | nil =>
    intro l₂ hp _ _ _
    exact (hp.nil_eq).symm ▸ rfl
  | cons a t₁ ih =>
    intro l₂ hp hs₁ hs₂ hanti
    cases l₂ with
    | nil => exact absurd hp.symm.nil_eq (by simp)
    | cons b t₂ =>
      have hab : a = b := by
        by_contra hne
        have hbmem : b ∈ a :: t₁ := hp.mem_iff.mpr (List.mem_cons_self b t₂)
        have hamem : a ∈ b :: t₂ := hp.mem_iff.mp (List.mem_cons_self a t₁)
        have hbt : b ∈ t₁ := by
          rcases List.mem_cons.mp hbmem with h | h
          · exact absurd h.symm hne
          · exact h
        have hat : a ∈ t₂ := by
          rcases List.mem_cons.mp hamem with h | h
          · exact absurd h hne
          · exact h
        have hrab : r a b := List.rel_of_sorted_cons hs₁ b hbt
        have hrba : r b a := List.rel_of_sorted_cons hs₂ a hat
        exact hne (hanti a (List.mem_cons_self a t₁) b hbmem hrab hrba)
      subst hab
      have hp' : t₁.Perm t₂ := (List.perm_cons a).mp hp
      have ht : t₁ = t₂ := ih hp' hs₁.of_cons hs₂.of_cons
        (fun x hx y hy => hanti x (List.mem_cons_of_mem a hx)
          y (List.mem_cons_of_mem a hy))
      rw [ht]

theorem posicaoAnterior_recalcularPosicoes (l : List RankingEntry) :
    (recalcularPosicoes l).map (fun e => e.posicaoAnterior) =
      (ordenarEntradas l).map (fun e => e.posicaoAnterior) := by
  unfold recalcularPosicoes
  rw [List.map_map]
  have hfun : ((fun e => e.posicaoAnterior) ∘
      fun p : ℕ × RankingEntry => atualizarPosicaoTendencia p.1 p.2) =
      (fun e : RankingEntry => e.posicaoAnterior) ∘ Prod.snd := by
    funext p
    exact (chaves_atualizarPosicaoTendencia p.1 p.2).2.2.2.2.2.1
  rw [hfun, ← List.map_map, List.enum_map_snd]

/-- A fixed entry value used to build concrete test inputs. -/
def entradaBase : RankingEntry :=
  { usuarioId := "u"
    nome := "U"
    avatar := none
    pontos := 0
    nivel := 1
    quizzesCompletados := 0
    sequenciaAtual := 0
    melhorSequencia := 0
    mediaAcertos := 0
    tempoTotalEstudo := 0
    ultimaAtividade := 0
    posicao := 0
    posicaoAnterior := none
    tendencia := Tendencia.novo }

/-- C4: after every recomputation pass over a global list of N entries the
positions, read off in output order, are exactly 1, 2, ..., N — every
position assigned, none duplicated, no gaps, with no tie-related exception
(the statement holds for every input list, including lists of entries tied on
all comparator keys). -/
theorem claimC4_density (l : List RankingEntry) :
    (recalcularPosicoes l).map (fun e => e.posicao) =
      (List.range l.length).map (fun i : ℕ => (i : ℚ) + 1) := by
  unfold recalcularPosicoes
  rw [List.map_map]
  have hfun : ((fun e => e.posicao) ∘
      fun p : ℕ × RankingEntry => atualizarPosicaoTendencia p.1 p.2) =
      (fun i : ℕ => (i : ℚ) + 1) ∘ Prod.fst := by
    funext p
    exact posicao_atualizarPosicaoTendencia p.1 p.2
  rw [hfun, ← List.map_map, List.enum_map_fst, length_ordenarEntradas]

/-- C6: `carregarRankings` prefers the remote source and never surfaces an
error: on remote success it returns the remote global list with the weekly
and monthly lists derived from it (and no categories); on remote failure it
returns the previously saved cache snapshot exactly when one exists — in
particular the snapshot written by the service's own `salvarRankings` — and
the empty snapshot when none does. -/
theorem claimC6_carregar_fallback :
    (∀ (g : List RankingEntry) (cache : Option RankingData) (agora : ℚ),
      carregarRankings (some g) cache agora =
        { global := g, semanal := filtrarSemanal g agora,
          mensal := filtrarMensal g agora, categoria := [] }) ∧
    (∀ (s : ServiceState) (agora : ℚ),
      carregarRankings none (salvarRankings s).cacheLocal agora = s.rankings) ∧
    (∀ (r : RankingData) (agora : ℚ), carregarRankings none (some r) agora = r) ∧
    (∀ agora : ℚ, carregarRankings none none agora = rankingsVazios ∧
      rankingsVazios.global = [] ∧ rankingsVazios.semanal = [] ∧
      rankingsVazios.mensal = [] ∧ rankingsVazios.categoria = []) :=
  ⟨fun _ _ _ => rfl, fun _ _ => rfl, fun _ _ => rfl,
   fun _ => ⟨rfl, rfl, rfl, rfl, rfl⟩⟩

/-- C9 (amended): `posicaoAnterior` is written only when the owning user
submits: updating an existing entry records the position the user held just
before the recomputation triggered by that submission, a freshly created
entry has no previous position, and `recalcularPosicoes` itself never touches
any entry's `posicaoAnterior` — so an entry displaced by another user's
submission keeps its stale (or absent) `posicaoAnterior`. -/
theorem claimC9_amended :
    (∀ (e : RankingEntry) (usuario : Usuario) (media acertos total tempoGasto agora : ℚ),
      (atualizarExistente e usuario media acertos total tempoGasto agora).posicaoAnterior =
        some e.posicao) ∧
    (∀ (usuario : Usuario) (acertos total tempoGasto agora : ℚ),
      (novaEntrada usuario acertos total tempoGasto agora).posicaoAnterior = none) ∧
    (∀ l : List RankingEntry,
      (recalcularPosicoes l).map (fun e => e.posicaoAnterior) =
        (ordenarEntradas l).map (fun e => e.posicaoAnterior)) := by
  refine ⟨fun e usuario media acertos total tempoGasto agora => ?_,
    fun _ _ _ _ _ => rfl, posicaoAnterior_recalcularPosicoes⟩
  unfold atualizarExistente
  split <;> rfl

/-- In every reachable state both the live snapshot and the cached snapshot
have an empty `categoria` grouping: no operation of the service ever writes
to it. -/
theorem categoria_invariante {s : ServiceState} (h : Reachable s) :
    s.rankings.categoria = [] ∧
      (∀ r : RankingData, s.cacheLocal = some r → r.categoria = []) := by
  induction h with
  | inicial =>
    exact ⟨rfl, fun r hr => by cases hr⟩
  | carregar s remoto agora _ ih =>
    refine ⟨?_, ih.2⟩
    cases remoto with
    | some g => rfl
    | none =>
      cases hc : s.cacheLocal with
      | some r => exact ih.2 r hc
      | none => rfl
  | processar s usuario quizId categoria pontos acertos total tempoGasto agora _ ih =>
    refine ⟨ih.1, fun r hr => ?_⟩
    have hr' : some (processarQuizCompletado s usuario quizId categoria pontos
        acertos total tempoGasto agora).rankings = some r := hr
    injection hr' with hr''
    rw [← hr'']
    exact ih.1
  | resetar s _ _ =>
    exact ⟨rfl, fun r hr => by cases hr⟩

/-- C10: in every reachable state of the service the by-category grouping is
empty — no operation writes `rankings.categoria` — so
`obterRankingPorCategoria` returns the empty list for every category and
`obterEstatisticasGerais` reports zero categories. -/
theorem claimC10_categoria (s : ServiceState) (h : Reachable s) :
    s.rankings.categoria = [] ∧
    (∀ categoria : String, obterRankingPorCategoria s.rankings categoria = []) ∧
    (obterEstatisticasGerais s.rankings).categorias = 0 := by
  have h1 := (categoria_invariante h).1
  refine ⟨h1, fun categoria => ?_, ?_⟩
  · unfold obterRankingPorCategoria
    rw [h1]
    rfl
  · unfold obterEstatisticasGerais
    rw [h1]
    rfl

/-- Witness for C10 at a concrete reachable state. -/
theorem claimC10_witness :
    obterRankingPorCategoria estadoInicial.rankings "Matematica" = [] :=
  (claimC10_categoria estadoInicial Reachable.inicial).2.1 "Matematica"

/-- A user record as seen by the ranking service; `pontos` is the running
total the caller supplies. -/
def usuarioA (pontos : ℚ) : Usuario :=
  { id := "A", nome := "Ana", avatar := none, pontos := pontos, nivel := 1 }

/-- A second user for multi-user scenarios. -/
def usuarioB : Usuario :=
  { id := "B", nome := "Bia", avatar := none, pontos := 50, nivel := 1 }

/-- State after user B's first submission (50 points, 8/10 correct). -/
def cenarioEstado1 : ServiceState :=
  processarQuizCompletado estadoInicial usuarioB "q1" "Matematica" 50 8 10 60 1000

/-- State after user A's first submission (10 points): A enters at position 2
behind B. -/
def cenarioEstado2 : ServiceState :=
  processarQuizCompletado cenarioEstado1 (usuarioA 10) "q2" "Matematica" 10 8 10 60 2000

/-- State after user A's second submission, which raises A's running total to
100 points: A overtakes B. -/
def cenarioEstado3 : ServiceState :=
  processarQuizCompletado cenarioEstado2 (usuarioA 100) "q3" "Matematica" 90 8 10 60 3000

/-- The state produced by submitting an event with `total = 0` (and
`acertos = 0`) for a user with no existing entry. -/
def estadoTotalZero : ServiceState :=
  processarQuizCompletado estadoInicial (usuarioA 10) "qz" "Matematica" 0 0 0 120 500

unseal Rat.mul Rat.inv Rat.add Rat.sub in
/-- C1: the claim says a `total = 0` submission is rejected with
`InvalidEventError` before any mutation.  The source has no such check (no
`InvalidEventError` exists anywhere in the repository): evaluating
`processarQuizCompletado` on a `total = 0` event from the empty initial state
shows a `RankingEntry` is created, the quiz stat is stored, the snapshot is
saved to the cache and a listener notification is fired. -/
theorem claimC1_sem_validacao :
    estadoTotalZero.rankings.global.length = 1 ∧
    (estadoTotalZero.rankings.global.find? (fun e => e.usuarioId == "A")).isSome = true ∧
    estadoTotalZero.quizStats.length = 1 ∧
    estadoTotalZero.cacheLocal = some estadoTotalZero.rankings ∧
    estadoTotalZero.notificacoes = [estadoTotalZero.rankings] ∧
    estadoTotalZero ≠ estadoInicial := by
  decide

unseal Rat.mul Rat.inv Rat.add Rat.sub in
/-- C2 counterexample: user A is present in two consecutive recomputations
(the ones triggered by `cenarioEstado2` and `cenarioEstado3`); A's position
strictly decreases from 2 to 1 after overtaking B on points, yet A's trend
after the second recomputation is `'novo'`, not `'subiu'` — the trend-update
block of `recalcularPosicoes` is skipped for every entry whose trend is
`'novo'`, and entries created by the service keep that trend forever. -/
theorem claimC2_cex :
    ((cenarioEstado2.rankings.global.find? (fun e => e.usuarioId == "A")).map
      (fun e => (e.posicao, e.tendencia)) = some (2, Tendencia.novo)) ∧
    ((cenarioEstado3.rankings.global.find? (fun e => e.usuarioId == "A")).map
      (fun e => (e.posicao, e.posicaoAnterior, e.tendencia)) =
        some (1, some 2, Tendencia.novo)) := by
  decide

/-- C2 (amended): the trend-versus-movement correspondence holds only for
entries whose trend entering the recomputation is not `'novo'` and whose
previously assigned position is nonzero.  For such an entry at sorted index
`i` (its new position being `i + 1`): its trend after the recomputation is
`'subiu'` exactly when its position strictly decreased, `'desceu'` exactly
when it strictly increased, and `'manteve'` exactly when it is unchanged.
Entries whose trend is `'novo'` — every entry this service instance itself
creates — keep trend `'novo'` regardless of movement. -/
theorem claimC2_amended (l : List RankingEntry) (i : ℕ)
    (hi : i < (recalcularPosicoes l).length) (hi' : i < (ordenarEntradas l).length)
    (hnovo : (ordenarEntradas l)[i].tendencia ≠ Tendencia.novo)
    (hpos : (ordenarEntradas l)[i].posicao ≠ 0) :
    ((recalcularPosicoes l)[i].tendencia = Tendencia.subiu ↔
      (recalcularPosicoes l)[i].posicao < (ordenarEntradas l)[i].posicao) ∧
    ((recalcularPosicoes l)[i].tendencia = Tendencia.desceu ↔
      (ordenarEntradas l)[i].posicao < (recalcularPosicoes l)[i].posicao) ∧
    ((recalcularPosicoes l)[i].tendencia = Tendencia.manteve ↔
      (recalcularPosicoes l)[i].posicao = (ordenarEntradas l)[i].posicao) := by
  rw [recalcularPosicoes_getElem l i hi hi', posicao_atualizarPosicaoTendencia]
  have ht : (atualizarPosicaoTendencia i (ordenarEntradas l)[i]).tendencia =
      (if (ordenarEntradas l)[i].posicao = 0 then Tendencia.novo
       else if (i : ℚ) + 1 < (ordenarEntradas l)[i].posicao then Tendencia.subiu
       else if (ordenarEntradas l)[i].posicao < (i : ℚ) + 1 then Tendencia.desceu
       else Tendencia.manteve) := by
    unfold atualizarPosicaoTendencia
    rw [if_pos hnovo]
  rw [ht, if_neg hpos]
  rcases lt_trichotomy ((i : ℚ) + 1) (ordenarEntradas l)[i].posicao with h | h | h
  · rw [if_pos h]
    exact ⟨iff_of_true rfl h,
      iff_of_false (by decide) (lt_asymm h),
      iff_of_false (by decide) (ne_of_lt h)⟩
  · rw [if_neg (h ▸ lt_irrefl ((i : ℚ) + 1)), if_neg (h ▸ lt_irrefl ((i : ℚ) + 1))]
    exact ⟨iff_of_false (by decide) (h ▸ lt_irrefl ((i : ℚ) + 1)),
      iff_of_false (by decide) (h ▸ lt_irrefl ((i : ℚ) + 1)),
      iff_of_true rfl h⟩
  · rw [if_neg (lt_asymm h), if_pos h]
    exact ⟨iff_of_false (by decide) (lt_asymm h),
      iff_of_true rfl h,
      iff_of_false (by decide) (ne_of_gt h)⟩

/-- An entry with a non-`'novo'` trend, as loaded from the remote source,
standing at position 3. -/
def entradaManteve : RankingEntry :=
  { entradaBase with tendencia := Tendencia.manteve, posicao := 3 }

unseal Rat.mul Rat.inv Rat.add Rat.sub in
/-- Witness for C2 (amended) at a concrete input: a lone entry whose stored
position is 3 is reassigned position 1, and its trend becomes `'subiu'`. -/
theorem claimC2_witness :
    ((recalcularPosicoes [entradaManteve]).get ⟨0, by decide⟩).tendencia =
      Tendencia.subiu :=
  (claimC2_amended [entradaManteve] 0 (by decide) (by decide) (by decide)
    (by decide)).1.mpr (by decide)

/-- An entry tied with `empateB` on all five comparator keys. -/
def empateA : RankingEntry :=
  { entradaBase with usuarioId := "a", tendencia := Tendencia.manteve, posicao := 1 }

/-- An entry tied with `empateA` on all five comparator keys. -/
def empateB : RankingEntry :=
  { entradaBase with usuarioId := "b", tendencia := Tendencia.manteve, posicao := 2 }

unseal Rat.mul Rat.inv Rat.add Rat.sub in
/-- C3 counterexample: two distinct entries tied on all five comparator keys.
The two orderings of the same multiset are permutations of each other, yet
`recalcularPosicoes` returns different outputs (the stable sort keeps full
ties in input order, so the input order decides who gets position 1). -/
theorem claimC3_cex :
    ([empateA, empateB].Perm [empateB, empateA]) ∧
    recalcularPosicoes [empateA, empateB] ≠ recalcularPosicoes [empateB, empateA] := by
  decide

/-- C3 (amended): `recalcularPosicoes` is insensitive to the input order of
its entry multiset provided no two distinct entries are tied on all five
comparator keys (totalPoints, averageAccuracyPercent, bestStreak,
quizzesCompleted, lastActivityAt); on full ties the stable sort falls back to
input order. -/
theorem claimC3_amended (l₁ l₂ : List RankingEntry) (hp : l₁.Perm l₂)
    (hinj : ∀ a ∈ l₁, ∀ b ∈ l₁, keyOf a = keyOf b → a = b) :
    recalcularPosicoes l₁ = recalcularPosicoes l₂ := by
  have hsort : ordenarEntradas l₁ = ordenarEntradas l₂ := by
    refine eq_of_perm_of_sorted_on
      ((perm_ordenarEntradas l₁).trans (hp.trans (perm_ordenarEntradas l₂).symm))
      (sorted_ordenarEntradas l₁) (sorted_ordenarEntradas l₂) ?_
    intro a ha b hb hab hba
    exact hinj a ((perm_ordenarEntradas l₁).mem_iff.mp ha)
      b ((perm_ordenarEntradas l₁).mem_iff.mp hb)
      (le_antisymm ((jsLe_iff_keyOf a b).mp hab) ((jsLe_iff_keyOf b a).mp hba))
  unfold recalcularPosicoes
  rw [hsort]

/-- An entry with more points than `distintoB`. -/
def distintoA : RankingEntry :=
  { entradaBase with usuarioId := "a", pontos := 5 }

/-- An entry with fewer points than `distintoA`. -/
def distintoB : RankingEntry :=
  { entradaBase with usuarioId := "b", pontos := 3 }

unseal Rat.mul Rat.inv Rat.add Rat.sub in
/-- Witness for C3 (amended) at a concrete input: two entries with distinct
point totals produce the same recomputation result from either input
order. -/
theorem claimC3_witness :
    recalcularPosicoes [distintoA, distintoB] =
      recalcularPosicoes [distintoB, distintoA] :=
  claimC3_amended [distintoA, distintoB] [distintoB, distintoA]
    (by decide) (by decide)

/-- Modelled from the spec (section 4.2 comparator priority list): `a`
strictly precedes `b` when the first key on which they differ — totalPoints,
then averageAccuracyPercent, then bestStreak, then quizzesCompleted, then
lastActivityAt — is in `a`'s favour, descending for the numeric keys and
most-recent-first for the activity timestamp. -/
def precedeEspec (a b : RankingEntry) : Prop :=
  b.pontos < a.pontos ∨ (a.pontos = b.pontos ∧
    (b.mediaAcertos < a.mediaAcertos ∨ (a.mediaAcertos = b.mediaAcertos ∧
      (b.melhorSequencia < a.melhorSequencia ∨ (a.melhorSequencia = b.melhorSequencia ∧
        (b.quizzesCompletados < a.quizzesCompletados ∨
          (a.quizzesCompletados = b.quizzesCompletados ∧
            b.ultimaAtividade < a.ultimaAtividade)))))))

instance (a b : RankingEntry) : Decidable (precedeEspec a b) := by
  unfold precedeEspec
  exact inferInstance

theorem keyOf_lt_iff_precedeEspec (a b : RankingEntry) :
    keyOf a < keyOf b ↔ precedeEspec a b := by
  unfold keyOf precedeEspec
  simp only [Prod.Lex.lt_iff, neg_lt_neg_iff, neg_inj]

theorem cmpEntries_of_empate (a b : RankingEntry)
    (h1 : a.pontos = b.pontos) (h2 : a.mediaAcertos = b.mediaAcertos)
    (h3 : a.melhorSequencia = b.melhorSequencia)
    (h4 : a.quizzesCompletados = b.quizzesCompletados) :
    cmpEntries a b = b.ultimaAtividade - a.ultimaAtividade := by
  unfold cmpEntries
  rw [if_neg (by simp [h1]), if_neg (by simp [h2]), if_neg (by simp [h3]),
    if_neg (by simp [h4])]

/-- C5: the recompute comparator orders two entries by the first differing
key in the priority order totalPoints, averageAccuracyPercent, bestStreak,
quizzesCompleted, lastActivityAt (all descending, most recent activity
first); consequently, among the entries of any recomputation output, an
entry tied with another on the first four keys but with the more recent
`ultimaAtividade` receives the strictly lower (better) position. -/
theorem claimC5_comparator :
    (∀ a b : RankingEntry, cmpEntries a b < 0 ↔ precedeEspec a b) ∧
    (∀ (l : List RankingEntry) (a b : RankingEntry),
      a ∈ recalcularPosicoes l → b ∈ recalcularPosicoes l →
      a.pontos = b.pontos → a.mediaAcertos = b.mediaAcertos →
      a.melhorSequencia = b.melhorSequencia →
      a.quizzesCompletados = b.quizzesCompletados →
      b.ultimaAtividade < a.ultimaAtividade →
      a.posicao < b.posicao) := by
  constructor
  · intro a b
    exact (cmpEntries_lt_iff a b).trans (keyOf_lt_iff_precedeEspec a b)
  · intro l a b ha hb h1 h2 h3 h4 hlt
    obtain ⟨i, hi, hia⟩ := List.mem_iff_getElem.mp ha
    obtain ⟨j, hj, hjb⟩ := List.mem_iff_getElem.mp hb
    have hi' : i < (ordenarEntradas l).length := by
      rw [length_ordenarEntradas, ← length_recalcularPosicoes]
      exact hi
    have hj' : j < (ordenarEntradas l).length := by
      rw [length_ordenarEntradas, ← length_recalcularPosicoes]
      exact hj
    rw [recalcularPosicoes_getElem l i hi hi'] at hia
    rw [recalcularPosicoes_getElem l j hj hj'] at hjb
    have hEA := chaves_atualizarPosicaoTendencia i ((ordenarEntradas l)[i])
    have hEB := chaves_atualizarPosicaoTendencia j ((ordenarEntradas l)[j])
    have haposicao : a.posicao = (i : ℚ) + 1 := by
      rw [← hia]
      exact posicao_atualizarPosicaoTendencia i _
    have hbposicao : b.posicao = (j : ℚ) + 1 := by
      rw [← hjb]
      exact posicao_atualizarPosicaoTendencia j _
    have hap : a.pontos = (ordenarEntradas l)[i].pontos := by
      rw [← hia]; exact hEA.1
    have ham : a.mediaAcertos = (ordenarEntradas l)[i].mediaAcertos := by
      rw [← hia]; exact hEA.2.1
    have has : a.melhorSequencia = (ordenarEntradas l)[i].melhorSequencia := by
      rw [← hia]; exact hEA.2.2.1
    have haq : a.quizzesCompletados = (ordenarEntradas l)[i].quizzesCompletados := by
      rw [← hia]; exact hEA.2.2.2.1
    have hau : a.ultimaAtividade = (ordenarEntradas l)[i].ultimaAtividade := by
      rw [← hia]; exact hEA.2.2.2.2.1
    have hbp : b.pontos = (ordenarEntradas l)[j].pontos := by
      rw [← hjb]; exact hEB.1
    have hbm : b.mediaAcertos = (ordenarEntradas l)[j].mediaAcertos := by
      rw [← hjb]; exact hEB.2.1
    have hbs : b.melhorSequencia = (ordenarEntradas l)[j].melhorSequencia := by
      rw [← hjb]; exact hEB.2.2.1
    have hbq : b.quizzesCompletados = (ordenarEntradas l)[j].quizzesCompletados := by
      rw [← hjb]; exact hEB.2.2.2.1
    have hbu : b.ultimaAtividade = (ordenarEntradas l)[j].ultimaAtividade := by
      rw [← hjb]; exact hEB.2.2.2.2.1
    have hij : i < j := by
      rcases lt_trichotomy i j with h | h | h
      · exact h
      · exfalso
        subst h
        rw [hia] at hjb
        rw [hjb] at hlt
        exact lt_irrefl _ hlt
      · exfalso
        have hrel : jsLe ((ordenarEntradas l).get ⟨j, hj'⟩)
            ((ordenarEntradas l).get ⟨i, hi'⟩) :=
          (sorted_ordenarEntradas l).rel_get_of_lt h
        have hrel' : cmpEntries ((ordenarEntradas l)[j]) ((ordenarEntradas l)[i]) ≤ 0 :=
          hrel
        rw [cmpEntries_of_empate _ _
          (by rw [← hbp, ← h1, hap]) (by rw [← hbm, ← h2, ham])
          (by rw [← hbs, ← h3, has]) (by rw [← hbq, ← h4, haq])] at hrel'
        rw [← hau, ← hbu] at hrel'
        linarith
    rw [haposicao, hbposicao]
    have hq : (i : ℚ) < (j : ℚ) := by exact_mod_cast hij
    linarith

/-- An entry more recently active than `recenteB`, all other keys tied. -/
def recenteA : RankingEntry :=
  { entradaBase with
    usuarioId := "a"
    ultimaAtividade := 2000
    tendencia := Tendencia.manteve
    posicao := 1 }

/-- An entry less recently active than `recenteA`, all other keys tied. -/
def recenteB : RankingEntry :=
  { entradaBase with
    usuarioId := "b"
    ultimaAtividade := 1000
    tendencia := Tendencia.manteve
    posicao := 2 }

unseal Rat.mul Rat.inv Rat.add Rat.sub in
/-- Witness for C5 at concrete inputs: with the first four keys tied, the
more recently active entry compares strictly smaller and ends at the better
position. -/
theorem claimC5_witness :
    cmpEntries recenteA recenteB < 0 ∧ recenteA.posicao < recenteB.posicao :=
  ⟨(claimC5_comparator.1 recenteA recenteB).mpr (by decide),
   claimC5_comparator.2 [recenteB, recenteA] recenteA recenteB
     (by decide) (by decide) rfl rfl rfl rfl (by decide)⟩

/-- A reference clock for the projection scenarios: 30 days in
milliseconds. -/
def agoraC7 : ℚ := 2592000000

/-- An entry active at the reference clock. -/
def entradaFresca : RankingEntry :=
  { entradaBase with ultimaAtividade := agoraC7 }

/-- An entry whose last activity is exactly 10 days (864000000 ms) before the
reference clock. -/
def entradaDezDias : RankingEntry :=
  { entradaBase with
    usuarioId := "antigo"
    ultimaAtividade := agoraC7 - 864000000 }

/-- A global list of 101 fresh entries followed by the 10-day-old entry. -/
def globalC7 : List RankingEntry :=
  List.replicate 101 entradaFresca ++ [entradaDezDias]

unseal Rat.mul Rat.inv Rat.add Rat.sub in
/-- C7 counterexample: a 10-day-old entry is in the global list and is
absent from the weekly list, but — against the claim's conclusion — it is
also absent from the monthly list, because 101 fresher entries fill the
100-entry monthly cap before it. -/
theorem claimC7_cex :
    entradaDezDias ∈ globalC7 ∧
    entradaDezDias ∉ filtrarSemanal globalC7 agoraC7 ∧
    entradaDezDias ∉ filtrarMensal globalC7 agoraC7 := by
  decide

/-- C7 (amended): the weekly projection is the global-ordered entries active
within 7 days truncated to 50, and the monthly projection those active
within 30 days truncated to 100 (both order-preserving sublists of the
global list).  A 10-day-old entry is never in the weekly list and always
passes the monthly filter, but it appears in the monthly list only when the
filtered list does not exceed the 100-entry cap. -/
theorem claimC7_amended (r : RankingData) (agora : ℚ) (e : RankingEntry)
    (hmem : e ∈ r.global)
    (h10 : e.ultimaAtividade = agora - 10 * (24 * 60 * 60 * 1000)) :
    (atualizarRankingsPorPeriodo r agora).semanal =
      (r.global.filter (fun x => agora - msSemana ≤ x.ultimaAtividade)).take 50 ∧
    (atualizarRankingsPorPeriodo r agora).mensal =
      (r.global.filter (fun x => agora - msMes ≤ x.ultimaAtividade)).take 100 ∧
    (atualizarRankingsPorPeriodo r agora).semanal.Sublist r.global ∧
    (atualizarRankingsPorPeriodo r agora).semanal.length ≤ 50 ∧
    (atualizarRankingsPorPeriodo r agora).mensal.Sublist r.global ∧
    (atualizarRankingsPorPeriodo r agora).mensal.length ≤ 100 ∧
    e ∉ (atualizarRankingsPorPeriodo r agora).semanal ∧
    e ∈ r.global.filter (fun x => agora - msMes ≤ x.ultimaAtividade) ∧
    ((r.global.filter (fun x => agora - msMes ≤ x.ultimaAtividade)).length ≤ 100 →
      e ∈ (atualizarRankingsPorPeriodo r agora).mensal) := by
  refine ⟨rfl, rfl,
    (List.take_sublist _ _).trans (List.filter_sublist _),
    List.length_take_le _ _,
    (List.take_sublist _ _).trans (List.filter_sublist _),
    List.length_take_le _ _, ?_, ?_, ?_⟩
  · intro hsem
    have hfil : e ∈ r.global.filter
        (fun x => agora - msSemana ≤ x.ultimaAtividade) :=
      List.mem_of_mem_take hsem
    have hpred := (List.mem_filter.mp hfil).2
    rw [decide_eq_true_eq, h10] at hpred
    rw [show msSemana = 604800000 by norm_num [msSemana]] at hpred
    linarith
  · refine List.mem_filter.mpr ⟨hmem, ?_⟩
    rw [decide_eq_true_eq, h10]
    rw [show msMes = 2592000000 by norm_num [msMes]]
    linarith
  · intro hlen
    have : (atualizarRankingsPorPeriodo r agora).mensal =
        r.global.filter (fun x => agora - msMes ≤ x.ultimaAtividade) :=
      List.take_of_length_le hlen
    rw [this]
    refine List.mem_filter.mpr ⟨hmem, ?_⟩
    rw [decide_eq_true_eq, h10]
    rw [show msMes = 2592000000 by norm_num [msMes]]
    linarith

/-- The ranking structure holding just the 10-day-old entry. -/
def dadosC7 : RankingData :=
  { global := [entradaDezDias], semanal := [], mensal := [], categoria := [] }

unseal Rat.mul Rat.inv Rat.add Rat.sub in
/-- Witness for C7 (amended) at a concrete input: with a single entry the
monthly filter is under its cap, so the 10-day-old entry lands in the
monthly list and not in the weekly list. -/
theorem claimC7_witness :
    entradaDezDias ∉ (atualizarRankingsPorPeriodo dadosC7 agoraC7).semanal ∧
    entradaDezDias ∈ (atualizarRankingsPorPeriodo dadosC7 agoraC7).mensal := by
  have h := claimC7_amended dadosC7 agoraC7 entradaDezDias (by decide) (by decide)
  exact ⟨h.2.2.2.2.2.2.1, h.2.2.2.2.2.2.2.2 (by decide)⟩

/-- C8: with `total > 0` a submission is a pass exactly when
`acertos / total ≥ 0.7`; on a pass an existing entry's current streak
increments and its best streak becomes the maximum of the old best and the
new current streak, while a non-pass resets the current streak to 0 and
leaves the best streak unchanged; a first-ever submission (no entry found)
appends a new entry whose current and best streaks are both 1 on a pass and
both 0 on a non-pass. -/
theorem claimC8_streaks (global : List RankingEntry)
    (todasEstatisticas : List QuizStats) (usuario : Usuario) (e : RankingEntry)
    (categoria : String) (pontos media acertos total tempoGasto agora : ℚ)
    (htotal : 0 < total) :
    (jsPassou acertos total = true ↔ (7 : ℚ) / 10 ≤ acertos / total) ∧
    ((7 : ℚ) / 10 ≤ acertos / total →
      (atualizarExistente e usuario media acertos total tempoGasto agora).sequenciaAtual =
        e.sequenciaAtual + 1 ∧
      (atualizarExistente e usuario media acertos total tempoGasto agora).melhorSequencia =
        max e.melhorSequencia (e.sequenciaAtual + 1) ∧
      (novaEntrada usuario acertos total tempoGasto agora).sequenciaAtual = 1 ∧
      (novaEntrada usuario acertos total tempoGasto agora).melhorSequencia = 1) ∧
    (acertos / total < (7 : ℚ) / 10 →
      (atualizarExistente e usuario media acertos total tempoGasto agora).sequenciaAtual = 0 ∧
      (atualizarExistente e usuario media acertos total tempoGasto agora).melhorSequencia =
        e.melhorSequencia ∧
      (novaEntrada usuario acertos total tempoGasto agora).sequenciaAtual = 0 ∧
      (novaEntrada usuario acertos total tempoGasto agora).melhorSequencia = 0) ∧
    (global.find? (fun x => x.usuarioId == usuario.id) = none →
      atualizarEntradaUsuario global todasEstatisticas usuario categoria pontos
        acertos total tempoGasto agora =
        global ++ [novaEntrada usuario acertos total tempoGasto agora]) := by
  have hiff : jsPassou acertos total = true ↔ (7 : ℚ) / 10 ≤ acertos / total := by
    unfold jsPassou
    rw [if_neg (ne_of_gt htotal)]
    exact decide_eq_true_iff
  refine ⟨hiff, fun hpass => ?_, fun hfail => ?_, fun hnone => ?_⟩
  · have hb : jsPassou acertos total = true := hiff.mpr hpass
    unfold atualizarExistente novaEntrada
    rw [hb]
    refine ⟨rfl, ?_, rfl, rfl⟩
    show (if e.melhorSequencia < e.sequenciaAtual + 1 then e.sequenciaAtual + 1
        else e.melhorSequencia) = max e.melhorSequencia (e.sequenciaAtual + 1)
    rcases lt_or_ge e.melhorSequencia (e.sequenciaAtual + 1) with h | h
    · rw [if_pos h, max_eq_right h.le]
    · rw [if_neg (not_lt.mpr h), max_eq_left h]
  · have hb : jsPassou acertos total = false := by
      cases hjs : jsPassou acertos total with
      | false => rfl
      | true => exact absurd (hiff.mp hjs) (not_le.mpr hfail)
    unfold atualizarExistente novaEntrada
    rw [hb]
    exact ⟨rfl, rfl, rfl, rfl⟩
  · unfold atualizarEntradaUsuario
    rw [hnone]

unseal Rat.mul Rat.inv Rat.add Rat.sub in
/-- Witness for C8 at a concrete input: a first-ever 8/10 submission
(accuracy 0.8 ≥ 0.7) creates an entry whose current and best streaks are
both 1. -/
theorem claimC8_witness :
    (0 : ℚ) < 10 ∧
    (novaEntrada (usuarioA 10) 8 10 120 0).sequenciaAtual = 1 ∧
    (novaEntrada (usuarioA 10) 8 10 120 0).melhorSequencia = 1 :=
  ⟨by norm_num,
   ((claimC8_streaks [] [] (usuarioA 10) entradaBase "Matematica" 10 0 8 10 120 0
      (by norm_num)).2.1 (by norm_num)).2.2.1,
   ((claimC8_streaks [] [] (usuarioA 10) entradaBase "Matematica" 10 0 8 10 120 0
      (by norm_num)).2.1 (by norm_num)).2.2.2⟩

unseal Rat.mul Rat.inv Rat.add Rat.sub in
/-- C9 counterexample: user B's position changes from 1 to 2 because user A
submitted a quiz, yet after that recomputation B's `posicaoAnterior` is still
absent (it is written only when B itself submits), not the position B held
immediately before the recomputation. -/
theorem claimC9_cex :
    ((cenarioEstado2.rankings.global.find? (fun e => e.usuarioId == "B")).map
      (fun e => (e.posicao, e.posicaoAnterior)) = some (1, none)) ∧
    ((cenarioEstado3.rankings.global.find? (fun e => e.usuarioId == "B")).map
      (fun e => (e.posicao, e.posicaoAnterior)) = some (2, none)) := by
  decide
